import Mathlib

/-!
Verification of the matchain-supply-apis supply engine.

The definitions below are a shallow embedding of the Rust sources:
  src/supply.rs  (calculate_pool_vesting, get_circulating_supply aggregation)
  src/utils.rs   (u256_to_human)
  src/config.rs  (validate_address_lists)
  src/main.rs    (the /total-supply and /circulating-supply route handlers)

Machine-integer conventions. `U256` values are modelled as `Nat`:
  - `a.checked_sub(b).unwrap_or(U256::zero())` is truncated `Nat` subtraction
    `a - b` (both yield `a - b` when `b ≤ a` and `0` otherwise);
  - `a.checked_sub(b).unwrap_or(a)` is `if b ≤ a then a - b else a`;
  - `a.checked_add(b).unwrap_or(c)` is `if a + b < 2^256 then a + b else c`;
  - `a.checked_mul(b).unwrap_or(U256::zero())` is
    `if a * b < 2^256 then a * b else 0`;
  - plain `+`, `*`, `/`, `%` on U256 panic on overflow (they never wrap), and
    every theorem below that touches a plain operation does so in a region
    where the operands provably stay below `2^256`, so plain `Nat`
    arithmetic coincides with the Rust semantics there;
  - `U256::exp10(n)` multiplies by 10 one step at a time with a
    panic-on-overflow multiplication; it returns `10^n` when `10^n < 2^256`
    and panics otherwise, modelled as an `Option Nat`.
Addresses (`ethers H160`) are opaque identifiers, modelled as `Nat`.
-/

namespace MatchainSupply

/-- Size of the U256 value space; checked U256 operations fail at this bound. -/
def TWO256 : Nat := 2 ^ 256

/-- Output record of `calculate_pool_vesting` (struct PoolCalculation,
src/supply.rs lines 7-16). -/
structure PoolCalculation where
  initial : Nat
  ratio_precision : Nat
  locked_amount : Nat
  days_passed : Nat
  days_until_lock_ends : Nat
  days_until_vesting_ends : Nat
  unlocked_fraction : Nat
deriving Repr, DecidableEq

/-- The TGE fraction as the code computes it (src/supply.rs lines 52, 57, 70,
74, 78): `tge_percentage * (ratio_precision / U256::from(100))` — the integer
division by 100 is applied to `ratio_precision` first, then multiplied. -/
def tge_fraction_code (tge_percentage ratio_precision : Nat) : Nat :=
  tge_percentage * (ratio_precision / 100)

/-- One-step-at-a-time stepped release loop (src/supply.rs lines 60-64).
State is `(unlocked, remaining)`; each iteration computes
`release = remaining * 166700 / ratio_precision`, then
`unlocked = unlocked.checked_add(release).unwrap_or(unlocked)` and
`remaining = remaining.checked_sub(release).unwrap_or(remaining)`. -/
def steppedLoop (ratio_precision : Nat) : Nat → Nat × Nat → Nat × Nat
  | 0, s => s
  | n + 1, s =>
    let release := s.2 * 166700 / ratio_precision
    let unlocked := if s.1 + release < TWO256 then s.1 + release else s.1
    let remaining := if release ≤ s.2 then s.2 - release else s.2
    steppedLoop ratio_precision n (unlocked, remaining)

/-- The `vesting_type == "stepped"` branch of the unlocked-fraction
computation (src/supply.rs lines 50-66). -/
def stepped_unlocked_fraction (tge_percentage cliff ratio_precision days_passed : Nat) : Nat :=
  if days_passed < cliff then
    tge_fraction_code tge_percentage ratio_precision
  else
    let periods_passed := (days_passed - cliff) / 90
    let periods := min periods_passed 6
    let tge_scaled := tge_fraction_code tge_percentage ratio_precision
    let s := steppedLoop ratio_precision periods (tge_scaled, ratio_precision - tge_scaled)
    min s.1 ratio_precision

/-- The linear branch of the unlocked-fraction computation (src/supply.rs
lines 67-80).  `vesting_progress * ratio_precision` is a `checked_mul`
falling back to zero, and the addition of the TGE fraction is a
`checked_add` falling back to the TGE fraction alone. -/
def linear_unlocked_fraction (tge_percentage cliff vesting ratio_precision days_passed : Nat) : Nat :=
  if days_passed < cliff then
    tge_fraction_code tge_percentage ratio_precision
  else if 0 < vesting then
    let vesting_progress := days_passed - cliff
    let prod := if vesting_progress * ratio_precision < TWO256
                then vesting_progress * ratio_precision else 0
    let tge_scaled := tge_fraction_code tge_percentage ratio_precision
    let frac := if prod / vesting + tge_scaled < TWO256
                then prod / vesting + tge_scaled else tge_scaled
    min frac ratio_precision
  else
    tge_fraction_code tge_percentage ratio_precision

/-- Shallow embedding of `calculate_pool_vesting` (src/supply.rs lines
18-99).  The out-of-bounds early return (lines 29-40) yields the
zero-locked record; otherwise days are derived from the timestamp delta at
86400 seconds per day and the unlocked fraction is computed per vesting
type; finally `unlocked = initial * unlocked_fraction / ratio_precision`
and `locked = initial.checked_sub(unlocked).unwrap_or(zero)`. -/
def calculate_pool_vesting (initial tge_percentage cliff vesting ratio_precision
    current_ts tge_ts : Nat) (vesting_type : String) : PoolCalculation :=
  if 10 ^ 27 < initial ∨ 2190 < cliff ∨ 2190 < vesting ∨
     ratio_precision < 1000 ∨ 10 ^ 16 < ratio_precision then
    { initial := initial, ratio_precision := ratio_precision, locked_amount := 0,
      days_passed := 0, days_until_lock_ends := 0, days_until_vesting_ends := 0,
      unlocked_fraction := 0 }
  else
    let seconds_passed := current_ts - tge_ts
    let days_passed := seconds_passed / 86400
    let days_until_lock_ends := cliff - days_passed
    let total_vesting_period := if cliff + vesting < TWO256 then cliff + vesting else cliff
    let days_until_vesting_ends := total_vesting_period - days_passed
    let unlocked_fraction :=
      if vesting_type = "stepped" then
        stepped_unlocked_fraction tge_percentage cliff ratio_precision days_passed
      else
        linear_unlocked_fraction tge_percentage cliff vesting ratio_precision days_passed
    let unlocked := if 0 < ratio_precision
                    then initial * unlocked_fraction / ratio_precision else 0
    let locked := initial - unlocked
    { initial := initial, ratio_precision := ratio_precision, locked_amount := locked,
      days_passed := days_passed, days_until_lock_ends := days_until_lock_ends,
      days_until_vesting_ends := days_until_vesting_ends,
      unlocked_fraction := unlocked_fraction }

/-- Model of `U256::exp10(n)`: repeated panic-on-overflow multiplication by
10, so it returns `10^n` when that fits in 256 bits and panics (`none`)
otherwise. -/
def exp10U256 (n : Nat) : Option Nat :=
  if 10 ^ n < TWO256 then some (10 ^ n) else none

/-- The zero-padding while-loop of src/utils.rs lines 25-27 (insert the
character 0 at the front until the length reaches `width`), in closed
form: prepend `width - length` zeros. -/
def padFractionZeros (l : List Char) (width : Nat) : List Char :=
  List.replicate (width - l.length) '0' ++ l

/-- The trailing-zero-stripping while-loop of src/utils.rs lines 30-32,
expressed on the reversed character list: drop leading zeros while more
than one character remains. -/
def dropZerosKeepLast : List Char → List Char
  | [] => []
  | c :: rest => if c = '0' ∧ rest ≠ [] then dropZerosKeepLast rest else c :: rest

/-- Shallow embedding of `u256_to_human` (src/utils.rs lines 4-39).
`none` models a Rust panic, which happens exactly when `U256::exp10`
overflows.  The dead zero-divisor guard of lines 13-15 is kept. -/
def u256_to_human (value : Nat) (decimals : Nat) : Option String :=
  if decimals = 0 then
    some (Nat.repr value)
  else
    match exp10U256 decimals with
    | none => none
    | some divisor =>
      if divisor = 0 then some "0"
      else
        let integer := value / divisor
        let fraction_part := value % divisor
        let padded := padFractionZeros (Nat.repr fraction_part).data decimals
        let stripped := (dropZerosKeepLast padded.reverse).reverse
        if String.mk stripped = "0" ∨ stripped.isEmpty then
          some (Nat.repr integer)
        else
          some (Nat.repr integer ++ "." ++ String.mk stripped)

/-- One off-chain pool entry, the tuple
`(Vec<(Address, String)>, U256, U256, U256, String, U256)` of
src/config.rs `read_pool_data` / src/supply.rs line 226, in field order:
addresses, tge_percentage, cliff, vesting, vesting_type, balance_at_tge. -/
structure OffchainPool where
  addrs : List (Nat × String)
  tge_percentage : Nat
  cliff : Nat
  vesting : Nat
  vesting_type : String
  balance_at_tge : Nat
deriving Repr, DecidableEq

/-- The pool-address list computed in `get_circulating_supply`
(src/supply.rs lines 140-143): every alias address of every off-chain pool
entry.  In the source this binding is computed and then never used. -/
def pool_addresses_of (pool_data : List OffchainPool) : List Nat :=
  pool_data.flatMap (fun p => p.addrs.map Prod.fst)

/-- Addresses whose `balanceOf` is added to the Matchain batch for the
excluded list (src/supply.rs lines 149-153): every excluded entry tagged
with chain Matchain, with no filtering against pool addresses. -/
def matchain_excluded_call_addrs (excluded : List (Nat × String)) : List Nat :=
  (excluded.filter (fun ac => ac.2 = "Matchain")).map Prod.fst

/-- Addresses whose `balanceOf` is added to the BSC batch for the excluded
list (src/supply.rs lines 171-175). -/
def bsc_excluded_call_addrs (excluded : List (Nat × String)) : List Nat :=
  (excluded.filter (fun ac => ac.2 = "BSC")).map Prod.fst

/-- The excluded-balance aggregate (src/supply.rs lines 183-187, 211-215,
218): the batched `balanceOf` results for the Matchain and BSC excluded
call lists, folded with addition.  `balM`/`balB` are the observed chain
balances. -/
def excluded_balance_of (balM balB : Nat → Nat) (excluded : List (Nat × String)) : Nat :=
  (((matchain_excluded_call_addrs excluded).map balM) ++
   ((bsc_excluded_call_addrs excluded).map balB)).foldl (· + ·) 0

/-- Off-chain locked-balance accumulation (src/supply.rs lines 220-243):
for each pool entry, run `calculate_pool_vesting` with
`ratio_precision = 1_000_000` and `initial = balance_at_tge`, and add its
`locked_amount` with `checked_add` falling back to the old accumulator. -/
def locked_balance_offchain (pool_data : List OffchainPool)
    (current_ts tge_timestamp : Nat) : Nat :=
  pool_data.foldl (fun acc p =>
    let pc := calculate_pool_vesting p.balance_at_tge p.tge_percentage p.cliff
      p.vesting 1000000 current_ts tge_timestamp p.vesting_type
    if acc + pc.locked_amount < TWO256 then acc + pc.locked_amount else acc) 0

/-- On-chain pool decode step (src/supply.rs lines 189-205): convert raw
lock/vesting durations from blocks to days at 172800 blocks per day, then
substitute `(0, 0, 0, 1_000_000)` when the decoded parameters are out of
bounds, else keep `(initial, lock_days, vesting_days, ratio_precision)`. -/
def decode_onchain_pool (initial lock_blocks vesting_blocks ratio_precision : Nat) :
    Nat × Nat × Nat × Nat :=
  let lock_days := lock_blocks / 172800
  let vesting_days := vesting_blocks / 172800
  if 10 ^ 27 < initial ∨ 2190 < lock_days ∨ 2190 < vesting_days ∨
     ratio_precision < 1000 ∨ 10 ^ 16 < ratio_precision then
    (0, 0, 0, 1000000)
  else
    (initial, lock_days, vesting_days, ratio_precision)

/-- The net total supply (src/supply.rs line 217):
`(total_m - burn_m) + (total_b - burn_b)` with each subtraction a
`checked_sub` falling back to zero. -/
def total_supply_agg (total_m burn_m total_b burn_b : Nat) : Nat :=
  (total_m - burn_m) + (total_b - burn_b)

/-- The final netting step (src/supply.rs line 276):
`total.checked_sub(excluded).unwrap_or(zero).checked_sub(locked).unwrap_or(zero)`,
i.e. two independently clamped subtractions. -/
def circulating_supply_of (total_supply excluded_balance locked_balance : Nat) : Nat :=
  total_supply - excluded_balance - locked_balance

/-- Startup validation (src/config.rs lines 56-83): collect every on-chain
pool address that also appears in the excluded-address list; error with
that list when it is non-empty.  Only the on-chain pool list is checked. -/
def validate_address_lists (excluded_addresses onchain_pool_addresses : List Nat) :
    Except (List Nat) Unit :=
  let duplicates := onchain_pool_addresses.filter (fun a => excluded_addresses.contains a)
  if duplicates.isEmpty then Except.ok () else Except.error duplicates

/-- The /total-supply route handler (src/main.rs lines 72-80): an `Ok`
value is returned as-is, every `Err` becomes the body string 0. -/
def total_supply_route (result : Except String String) : String :=
  match result with
  | Except.ok value => value
  | Except.error _ => "0"

/-- The /circulating-supply route handler (src/main.rs lines 82-99): an
`Ok` value is returned as-is, every `Err` becomes the body string 0. -/
def circulating_supply_route (result : Except String String) : String :=
  match result with
  | Except.ok value => value
  | Except.error _ => "0"

/-! ## Helper lemmas -/

/-- Under in-bounds parameters the early return of `calculate_pool_vesting`
is not taken and `unlocked_fraction` is given by the per-type branch on
`days_passed = (current_ts - tge_ts) / 86400`. -/
theorem cpv_unlocked_fraction_of_valid (i tge c v rp t g : Nat) (vt : String)
    (hI : i ≤ 10 ^ 27) (hC : c ≤ 2190) (hV : v ≤ 2190)
    (hLo : 1000 ≤ rp) (hHi : rp ≤ 10 ^ 16) :
    (calculate_pool_vesting i tge c v rp t g vt).unlocked_fraction =
      (if vt = "stepped"
       then stepped_unlocked_fraction tge c rp ((t - g) / 86400)
       else linear_unlocked_fraction tge c v rp ((t - g) / 86400)) := by
  have hguard : ¬(10 ^ 27 < i ∨ 2190 < c ∨ 2190 < v ∨ rp < 1000 ∨ 10 ^ 16 < rp) := by
    push_neg
    exact ⟨hI, hC, hV, hLo, hHi⟩
  simp only [calculate_pool_vesting, if_neg hguard]

/-- Under in-bounds parameters `locked_amount` is
`initial - initial * unlocked_fraction / ratio_precision`. -/
theorem cpv_locked_amount_of_valid (i tge c v rp t g : Nat) (vt : String)
    (hI : i ≤ 10 ^ 27) (hC : c ≤ 2190) (hV : v ≤ 2190)
    (hLo : 1000 ≤ rp) (hHi : rp ≤ 10 ^ 16) :
    (calculate_pool_vesting i tge c v rp t g vt).locked_amount =
      i - i * (if vt = "stepped"
               then stepped_unlocked_fraction tge c rp ((t - g) / 86400)
               else linear_unlocked_fraction tge c v rp ((t - g) / 86400)) / rp := by
  have hguard : ¬(10 ^ 27 < i ∨ 2190 < c ∨ 2190 < v ∨ rp < 1000 ∨ 10 ^ 16 < rp) := by
    push_neg
    exact ⟨hI, hC, hV, hLo, hHi⟩
  simp only [calculate_pool_vesting, if_neg hguard, if_pos (show 0 < rp by omega)]

/-- The TGE fraction as computed by the code is at most `ratio_precision`
whenever `tge_percentage ≤ 100`. -/
theorem tge_fraction_code_le (tge rp : Nat) (hTge : tge ≤ 100) :
    tge_fraction_code tge rp ≤ rp := by
  calc tge * (rp / 100) ≤ 100 * (rp / 100) := Nat.mul_le_mul_right _ hTge
    _ = rp / 100 * 100 := Nat.mul_comm _ _
    _ ≤ rp := Nat.div_mul_le_self rp 100

/-- Invariant of the stepped release loop when `166700 < ratio_precision`:
each release is strictly smaller than the remainder, so the remainder
stays at least 1 and unlocked + remaining is preserved at
`ratio_precision`. -/
theorem steppedLoop_invariant (rp : Nat) (hrp : 166700 < rp) (hrp2 : rp < TWO256) :
    ∀ n u r, 1 ≤ r → u + r = rp →
      1 ≤ (steppedLoop rp n (u, r)).2 ∧
      (steppedLoop rp n (u, r)).1 + (steppedLoop rp n (u, r)).2 = rp := by
  intro n
  induction n with
  | zero =>
    intro u r h1 h2
    exact ⟨h1, h2⟩
  | succ k ih =>
    intro u r h1 h2
    have hrel : r * 166700 / rp < r := by
      rw [Nat.div_lt_iff_lt_mul (by omega : 0 < rp)]
      exact mul_lt_mul_of_pos_left hrp (by omega)
    simp only [steppedLoop]
    have h3 : u + r * 166700 / rp < TWO256 := by omega
    have h4 : r * 166700 / rp ≤ r := le_of_lt hrel
    rw [if_pos h3, if_pos h4]
    exact ih (u + r * 166700 / rp) (r - r * 166700 / rp) (by omega) (by omega)

/-- Before the cliff the linear branch returns the TGE fraction. -/
theorem linear_uf_before_cliff (tge c v rp dp : Nat) (h : dp < c) :
    linear_unlocked_fraction tge c v rp dp = tge_fraction_code tge rp := by
  simp only [linear_unlocked_fraction, if_pos h]

/-- With zero vesting duration the linear branch returns the TGE fraction
after the cliff as well. -/
theorem linear_uf_zero_vesting (tge c v rp dp : Nat) (h : ¬ dp < c) (hv : ¬ 0 < v) :
    linear_unlocked_fraction tge c v rp dp = tge_fraction_code tge rp := by
  simp only [linear_unlocked_fraction, if_neg h, if_neg hv]

/-- After the cliff with positive vesting, while the intermediate product
and sum stay below 2^256 the checked operations succeed and the linear
branch is the clamped affine formula. -/
theorem linear_uf_after_cliff (tge c v rp dp : Nat) (h : ¬ dp < c) (hv : 0 < v)
    (hmul : (dp - c) * rp < TWO256)
    (hadd : (dp - c) * rp / v + tge_fraction_code tge rp < TWO256) :
    linear_unlocked_fraction tge c v rp dp =
      min ((dp - c) * rp / v + tge_fraction_code tge rp) rp := by
  simp only [linear_unlocked_fraction, if_neg h, if_pos hv, if_pos hmul, if_pos hadd]

/-- Monotonicity of the linear branch in `days_passed`, valid while the
checked product for the later day (plus the TGE fraction) has not
overflowed. -/
theorem linear_unlocked_fraction_mono (tge c v rp dp1 dp2 : Nat)
    (hTge : tge ≤ 100) (hdp : dp1 ≤ dp2)
    (hNoOv : (dp2 - c) * rp + tge * (rp / 100) < TWO256) :
    linear_unlocked_fraction tge c v rp dp1 ≤ linear_unlocked_fraction tge c v rp dp2 := by
  have htgeS : tge_fraction_code tge rp ≤ rp := tge_fraction_code_le tge rp hTge
  have hNoOv' : (dp2 - c) * rp + tge_fraction_code tge rp < TWO256 := hNoOv
  have hsafe : ∀ dp, dp ≤ dp2 →
      (dp - c) * rp < TWO256 ∧
      (dp - c) * rp / v + tge_fraction_code tge rp < TWO256 := by
    intro dp hle
    have hmono : (dp - c) * rp ≤ (dp2 - c) * rp :=
      Nat.mul_le_mul_right _ (Nat.sub_le_sub_right hle c)
    have hd : (dp - c) * rp / v ≤ (dp - c) * rp := Nat.div_le_self _ _
    omega
  by_cases h2 : dp2 < c
  · rw [linear_uf_before_cliff tge c v rp dp1 (lt_of_le_of_lt hdp h2),
        linear_uf_before_cliff tge c v rp dp2 h2]
  · by_cases hv : 0 < v
    · obtain ⟨hmul2, hadd2⟩ := hsafe dp2 le_rfl
      rw [linear_uf_after_cliff tge c v rp dp2 h2 hv hmul2 hadd2]
      by_cases h1 : dp1 < c
      · rw [linear_uf_before_cliff tge c v rp dp1 h1]
        exact le_min (Nat.le_add_left _ _) htgeS
      · obtain ⟨hmul1, hadd1⟩ := hsafe dp1 hdp
        rw [linear_uf_after_cliff tge c v rp dp1 h1 hv hmul1 hadd1]
        refine min_le_min (Nat.add_le_add_right ?_ _) le_rfl
        exact Nat.div_le_div_right (Nat.mul_le_mul_right _ (Nat.sub_le_sub_right hdp c))
    · by_cases h1 : dp1 < c
      · rw [linear_uf_before_cliff tge c v rp dp1 h1,
            linear_uf_zero_vesting tge c v rp dp2 h2 hv]
      · rw [linear_uf_zero_vesting tge c v rp dp1 h1 hv,
            linear_uf_zero_vesting tge c v rp dp2 h2 hv]

/-! ## Claim theorems -/

/-- C3: the claim asserts that at days_passed = 120 the pool
(initial 1,000,000, TGE 10%, cliff 30, vesting 90, ratio_precision
1,000,000, linear) yields unlocked_fraction 433,333 and locked 566,667.
The code yields unlocked_fraction 1,000,000 there (cliff + vesting = 120
days have fully elapsed), refuting the claim. -/
theorem c3_counterexample :
    (calculate_pool_vesting 1000000 10 30 90 1000000 (120 * 86400) 0 "linear").unlocked_fraction
      ≠ 433333 := by decide

/-- C3 (amended): at days_passed = 120 the pool is fully vested
(unlocked_fraction 1,000,000, locked 0); the claimed figures
433,333 / 566,667 occur at days_passed = 60. -/
theorem c3_amended_values :
    (calculate_pool_vesting 1000000 10 30 90 1000000 (120 * 86400) 0 "linear").unlocked_fraction
        = 1000000 ∧
    (calculate_pool_vesting 1000000 10 30 90 1000000 (120 * 86400) 0 "linear").locked_amount
        = 0 ∧
    (calculate_pool_vesting 1000000 10 30 90 1000000 (60 * 86400) 0 "linear").unlocked_fraction
        = 433333 ∧
    (calculate_pool_vesting 1000000 10 30 90 1000000 (60 * 86400) 0 "linear").locked_amount
        = 566667 := by decide

/-- C4: the claim asserts the TGE fraction is
`floor(tge_percentage * ratio_precision / 100)` with the division applied
to the full product, for every ratio_precision in [1000, 10^16], including
values not divisible by 100.  At ratio_precision = 1050, tge = 10 (before
the cliff) the code yields 10 * (1050 / 100) = 100, not
10 * 1050 / 100 = 105. -/
theorem c4_counterexample :
    (calculate_pool_vesting 1000000 10 30 90 1050 0 0 "linear").unlocked_fraction
      ≠ 10 * 1050 / 100 := by decide

/-- C5: both route handlers render every error as the body string 0,
identical to the handler output for a legitimately-zero supply, so a
failed computation is signalled to the caller only by the string 0
(the diagnostic goes to stderr, not to the caller). -/
theorem c5_handlers_return_zero_on_error :
    total_supply_route (Except.error "transport failure") = "0" ∧
    total_supply_route (Except.ok "0") = "0" ∧
    circulating_supply_route (Except.error "decode failure") = "0" ∧
    circulating_supply_route (Except.ok "0") = "0" :=
  ⟨rfl, rfl, rfl, rfl⟩

/-- C7: the final netting step equals
`max 0 (max 0 (total - excluded) - locked)` over the integers, with each
subtraction clamped independently; in particular total 1,000,000 with
excluded 1,200,000 yields 0 for every locked balance. -/
theorem c7_circulating_clamped :
    (∀ total excluded locked : Nat,
       (circulating_supply_of total excluded locked : Int) =
         max 0 (max 0 ((total : Int) - (excluded : Int)) - (locked : Int))) ∧
    (∀ locked : Nat, circulating_supply_of 1000000 1200000 locked = 0) := by
  constructor
  · intro total excluded locked
    unfold circulating_supply_of
    omega
  · intro locked
    unfold circulating_supply_of
    omega

/-- C9: the claim asserts `u256_to_human` is total for every decimals in
0-255.  At decimals = 78 the divisor computation `U256::exp10(78)`
overflows 2^256 and panics (modelled as `none`), despite the code comments
about avoiding overflow and panic; decimals up to 77 are safe. -/
theorem c9_exp10_overflow_at_78 :
    u256_to_human 0 78 = none ∧
    u256_to_human 1234500000000000000 18 = some "1.2345" ∧
    u256_to_human 1000000000000000000 18 = some "1" ∧
    u256_to_human 0 18 = some "0" := by
  refine ⟨?_, ?_, ?_, ?_⟩ <;> rfl

/-- C1: the claim asserts pool addresses appearing in the excluded list
are removed from the excluded balanceOf calls before the batch is issued.
In the code the pool-address list (src/supply.rs 140-143) is computed but
never used: with address 7 both an off-chain pool alias and an excluded
Matchain entry, the startup validation (which only checks on-chain pools)
passes, 7 still receives an excluded balanceOf call, and its holdings are
counted in excluded_balance and again in locked_balance, so circulating
supply subtracts the same logical pool twice. -/
theorem c1_pool_address_double_counted :
    7 ∈ matchain_excluded_call_addrs [(7, "Matchain")] ∧
    7 ∈ pool_addresses_of [⟨[(7, "Matchain")], 0, 100, 100, "linear", 1000000⟩] ∧
    validate_address_lists [7] [] = Except.ok () ∧
    excluded_balance_of (fun a => if a = 7 then 1000000 else 0) (fun _ => 0)
        [(7, "Matchain")] = 1000000 ∧
    locked_balance_offchain [⟨[(7, "Matchain")], 0, 100, 100, "linear", 1000000⟩] 0 0
        = 1000000 ∧
    circulating_supply_of 10000000 1000000 1000000 = 8000000 := by
  refine ⟨?_, ?_, ?_, ?_, ?_, ?_⟩ <;> first | rfl | decide

/-- C2: the claim asserts stepped vesting with days_passed - cliff ≥ 540
reaches unlocked_fraction = ratio_precision exactly.  With tge 0, cliff 0
and ratio_precision 1,000,000 at 540 days the six compounding periods
(16.67% of the remainder each) leave unlocked_fraction = 665,180 and
locked_amount = 334,820 — far short of ratio_precision. -/
theorem c2_counterexample :
    (calculate_pool_vesting 1000000 0 0 0 1000000 46656000 0 "stepped").unlocked_fraction
      ≠ 1000000 := by decide

/-- C8: the claim asserts locked_amount is non-increasing in
current_timestamp for linear vesting with all U256 timestamps admitted.
At current_ts = 2^256 - 1 the product `(days_passed - cliff) *
ratio_precision` overflows, the `checked_mul` falls back to zero, and
locked_amount jumps back from 0 (at 90 days) to the full initial amount,
violating monotonicity. -/
theorem c8_counterexample :
    7776000 ≤ 2 ^ 256 - 1 ∧
    ¬((calculate_pool_vesting 1000000 0 0 90 1000000 (2 ^ 256 - 1) 0 "linear").locked_amount
        ≤ (calculate_pool_vesting 1000000 0 0 90 1000000 7776000 0 "linear").locked_amount) := by
  constructor
  · decide
  · decide

/-- C10: when a decoded on-chain pool is out of bounds (after the
blocks-to-days conversion at 172,800 blocks per day) the decode step
substitutes the record (0, 0, 0, 1,000,000) instead of failing, and the
vesting calculation on that substitute yields locked_amount = 0 at every
timestamp, so the pool contributes exactly zero to locked_balance. -/
theorem c10_invalid_onchain_pool_substitution
    (initial lock_blocks vesting_blocks rp : Nat)
    (hBad : 10 ^ 27 < initial ∨ 2190 < lock_blocks / 172800 ∨
            2190 < vesting_blocks / 172800 ∨ rp < 1000 ∨ 10 ^ 16 < rp) :
    decode_onchain_pool initial lock_blocks vesting_blocks rp = (0, 0, 0, 1000000) ∧
    ∀ t g, (calculate_pool_vesting 0 0 0 0 1000000 t g "linear").locked_amount = 0 := by
  constructor
  · simp only [decode_onchain_pool, if_pos hBad]
  · intro t g
    rw [cpv_locked_amount_of_valid 0 0 0 0 1000000 t g "linear"
      (by decide) (by decide) (by decide) (by decide) (by decide)]
    simp

/-- C10 witness: the substitution and zero contribution at the concrete
out-of-bounds input initial = 10^27 + 1. -/
theorem c10_invalid_onchain_pool_substitution_witness :
    decode_onchain_pool (10 ^ 27 + 1) 0 0 1000000 = (0, 0, 0, 1000000) ∧
    (calculate_pool_vesting 0 0 0 0 1000000 5 3 "linear").locked_amount = 0 :=
  ⟨(c10_invalid_onchain_pool_substitution (10 ^ 27 + 1) 0 0 1000000
      (Or.inl (by decide))).1,
   (c10_invalid_onchain_pool_substitution (10 ^ 27 + 1) 0 0 1000000
      (Or.inl (by decide))).2 5 3⟩

/-- C2 (amended): for stepped vesting with days_passed - cliff ≥ 540 the
period count caps at 6 and the unlocked fraction is the six-fold
compounded release, which stays strictly below ratio_precision whenever
ratio_precision > 166,700 and the computed TGE fraction is below
ratio_precision — an integer-floor residue is left permanently locked
(locked_amount stays positive for positive initial). -/
theorem c2_stepped_plateau_below_precision (initial tge c v rp t g : Nat)
    (hI : initial ≤ 10 ^ 27) (hC : c ≤ 2190) (hV : v ≤ 2190)
    (hLo : 166700 < rp) (hHi : rp ≤ 10 ^ 16)
    (hTgeS : tge * (rp / 100) < rp)
    (hCliff : c ≤ (t - g) / 86400)
    (hPeriods : 540 ≤ (t - g) / 86400 - c) :
    (calculate_pool_vesting initial tge c v rp t g "stepped").unlocked_fraction < rp ∧
    (0 < initial →
      0 < (calculate_pool_vesting initial tge c v rp t g "stepped").locked_amount) := by
  have hLo' : 1000 ≤ rp := by omega
  have hUf := cpv_unlocked_fraction_of_valid initial tge c v rp t g "stepped"
    hI hC hV hLo' hHi
  have hLocked := cpv_locked_amount_of_valid initial tge c v rp t g "stepped"
    hI hC hV hLo' hHi
  rw [if_pos rfl] at hUf hLocked
  have hnotlt : ¬ (t - g) / 86400 < c := not_lt.mpr hCliff
  have hper : min (((t - g) / 86400 - c) / 90) 6 = 6 := by
    apply min_eq_right
    have h90 : 540 / 90 ≤ ((t - g) / 86400 - c) / 90 := Nat.div_le_div_right hPeriods
    simpa using h90
  have hufVal : stepped_unlocked_fraction tge c rp ((t - g) / 86400) =
      min (steppedLoop rp 6
        (tge_fraction_code tge rp, rp - tge_fraction_code tge rp)).1 rp := by
    simp only [stepped_unlocked_fraction, if_neg hnotlt, hper]
  have hTgeS' : tge_fraction_code tge rp < rp := hTgeS
  have hrp2 : rp < TWO256 := lt_of_le_of_lt hHi (by decide)
  obtain ⟨hs1, hs2⟩ := steppedLoop_invariant rp hLo hrp2 6
    (tge_fraction_code tge rp) (rp - tge_fraction_code tge rp)
    (by omega) (by omega)
  have hlt : (steppedLoop rp 6
      (tge_fraction_code tge rp, rp - tge_fraction_code tge rp)).1 < rp := by omega
  have hufFinal : (calculate_pool_vesting initial tge c v rp t g "stepped").unlocked_fraction
      = (steppedLoop rp 6
          (tge_fraction_code tge rp, rp - tge_fraction_code tge rp)).1 := by
    rw [hUf, hufVal, min_eq_left (le_of_lt hlt)]
  constructor
  · rw [hufFinal]
    exact hlt
  · intro hpos
    rw [hLocked, hufVal, min_eq_left (le_of_lt hlt)]
    have hdiv : initial * (steppedLoop rp 6
        (tge_fraction_code tge rp, rp - tge_fraction_code tge rp)).1 / rp < initial := by
      rw [Nat.div_lt_iff_lt_mul (by omega : 0 < rp)]
      exact mul_lt_mul_of_pos_left hlt hpos
    omega

/-- C2 witness: the amended property at the concrete input of the
counterexample (tge 0, cliff 0, ratio_precision 1,000,000, 540 days). -/
theorem c2_stepped_plateau_below_precision_witness :
    166700 < 1000000 ∧
    ((calculate_pool_vesting 1000000 0 0 0 1000000 46656000 0 "stepped").unlocked_fraction
        < 1000000 ∧
     (0 < 1000000 →
       0 < (calculate_pool_vesting 1000000 0 0 0 1000000 46656000 0 "stepped").locked_amount)) :=
  ⟨by decide,
   c2_stepped_plateau_below_precision 1000000 0 0 0 1000000 46656000 0
     (by decide) (by decide) (by decide) (by decide) (by decide)
     (by decide) (by decide) (by decide)⟩

/-- C4 (amended): before the cliff the unlocked fraction is
`tge_percentage * (ratio_precision / 100)` — the integer division is
applied to ratio_precision first; this agrees with
`floor(tge_percentage * ratio_precision / 100)` exactly when 100 divides
ratio_precision. -/
theorem c4_tge_fraction_divide_first (i tge c v rp t g : Nat) (vt : String)
    (hI : i ≤ 10 ^ 27) (hC : c ≤ 2190) (hV : v ≤ 2190)
    (hLo : 1000 ≤ rp) (hHi : rp ≤ 10 ^ 16)
    (hDp : (t - g) / 86400 < c) :
    (calculate_pool_vesting i tge c v rp t g vt).unlocked_fraction = tge * (rp / 100) ∧
    (100 ∣ rp →
      (calculate_pool_vesting i tge c v rp t g vt).unlocked_fraction = tge * rp / 100) := by
  have hUf := cpv_unlocked_fraction_of_valid i tge c v rp t g vt hI hC hV hLo hHi
  have hBranch : (calculate_pool_vesting i tge c v rp t g vt).unlocked_fraction
      = tge * (rp / 100) := by
    rw [hUf]
    by_cases hvt : vt = "stepped"
    · rw [if_pos hvt]
      simp only [stepped_unlocked_fraction, if_pos hDp]
      rfl
    · rw [if_neg hvt]
      rw [linear_uf_before_cliff tge c v rp _ hDp]
      rfl
  refine ⟨hBranch, fun hDvd => ?_⟩
  rw [hBranch, Nat.mul_div_assoc tge hDvd]

/-- C4 witness: the amended property at tge 10, ratio_precision 1,000,000
(divisible by 100) before the cliff. -/
theorem c4_tge_fraction_divide_first_witness :
    (0 - 0) / 86400 < 30 ∧
    ((calculate_pool_vesting 1000000 10 30 90 1000000 0 0 "linear").unlocked_fraction
        = 10 * (1000000 / 100) ∧
     (100 ∣ 1000000 →
       (calculate_pool_vesting 1000000 10 30 90 1000000 0 0 "linear").unlocked_fraction
         = 10 * 1000000 / 100)) :=
  ⟨by decide,
   c4_tge_fraction_divide_first 1000000 10 30 90 1000000 0 0 "linear"
     (by decide) (by decide) (by decide) (by decide) (by decide) (by decide)⟩

/-- C6: for every in-bounds input (tge_percentage ≤ 100, cliff and vesting
at most 2190 days, ratio_precision in [1000, 10^16], initial at most
10^27) and any timestamps and vesting type, the outputs satisfy
unlocked_fraction ≤ ratio_precision and locked_amount ≤ initial (both are
naturals, hence also nonnegative). -/
theorem c6_output_bounds (i tge c v rp t g : Nat) (vt : String)
    (hTge : tge ≤ 100) (hI : i ≤ 10 ^ 27) (hC : c ≤ 2190) (hV : v ≤ 2190)
    (hLo : 1000 ≤ rp) (hHi : rp ≤ 10 ^ 16) :
    (calculate_pool_vesting i tge c v rp t g vt).unlocked_fraction ≤ rp ∧
    (calculate_pool_vesting i tge c v rp t g vt).locked_amount ≤ i := by
  have hUf := cpv_unlocked_fraction_of_valid i tge c v rp t g vt hI hC hV hLo hHi
  have hLocked := cpv_locked_amount_of_valid i tge c v rp t g vt hI hC hV hLo hHi
  constructor
  · rw [hUf]
    by_cases hvt : vt = "stepped"
    · rw [if_pos hvt]
      simp only [stepped_unlocked_fraction]
      split
      · exact tge_fraction_code_le tge rp hTge
      · exact min_le_right _ _
    · rw [if_neg hvt]
      simp only [linear_unlocked_fraction]
      split
      · exact tge_fraction_code_le tge rp hTge
      · split
        · exact min_le_right _ _
        · exact tge_fraction_code_le tge rp hTge
  · rw [hLocked]
    exact Nat.sub_le _ _

/-- C6 witness: the bounds at a concrete in-bounds input. -/
theorem c6_output_bounds_witness :
    (calculate_pool_vesting 1000000 10 30 90 1000000 (60 * 86400) 0 "linear").unlocked_fraction
        ≤ 1000000 ∧
    (calculate_pool_vesting 1000000 10 30 90 1000000 (60 * 86400) 0 "linear").locked_amount
        ≤ 1000000 :=
  c6_output_bounds 1000000 10 30 90 1000000 (60 * 86400) 0 "linear"
    (by decide) (by decide) (by decide) (by decide) (by decide) (by decide)

/-- C8 (amended): for linear vesting with in-bounds parameters,
locked_amount is non-increasing in current_timestamp as long as the
intermediate product `(days_passed - cliff) * ratio_precision` plus the
TGE fraction for the later timestamp stays below 2^256 (the region where
the checked multiplication and addition do not fall back); beyond it the
checked_mul fallback to zero makes locked_amount jump back up. -/
theorem c8_locked_monotone_amended (i tge c v rp g t1 t2 : Nat)
    (hTge : tge ≤ 100) (hI : i ≤ 10 ^ 27) (hC : c ≤ 2190) (hV : v ≤ 2190)
    (hLo : 1000 ≤ rp) (hHi : rp ≤ 10 ^ 16)
    (hle : t1 ≤ t2)
    (hNoOv : ((t2 - g) / 86400 - c) * rp + tge * (rp / 100) < TWO256) :
    (calculate_pool_vesting i tge c v rp t2 g "linear").locked_amount ≤
      (calculate_pool_vesting i tge c v rp t1 g "linear").locked_amount := by
  have hL1 := cpv_locked_amount_of_valid i tge c v rp t1 g "linear" hI hC hV hLo hHi
  have hL2 := cpv_locked_amount_of_valid i tge c v rp t2 g "linear" hI hC hV hLo hHi
  rw [if_neg (by decide : ¬("linear" = "stepped"))] at hL1 hL2
  rw [hL1, hL2]
  apply Nat.sub_le_sub_left
  apply Nat.div_le_div_right
  apply Nat.mul_le_mul_left
  exact linear_unlocked_fraction_mono tge c v rp _ _ hTge
    (Nat.div_le_div_right (Nat.sub_le_sub_right hle g)) hNoOv

/-- C8 witness: monotonicity between day 0 and day 1 for the Scenario A
pool, inside the no-overflow region. -/
theorem c8_locked_monotone_amended_witness :
    ((86400 - 0) / 86400 - 30) * 1000000 + 10 * (1000000 / 100) < TWO256 ∧
    (calculate_pool_vesting 1000000 10 30 90 1000000 86400 0 "linear").locked_amount ≤
      (calculate_pool_vesting 1000000 10 30 90 1000000 0 0 "linear").locked_amount :=
  ⟨by decide,
   c8_locked_monotone_amended 1000000 10 30 90 1000000 0 0 86400
     (by decide) (by decide) (by decide) (by decide) (by decide) (by decide)
     (by decide) (by decide)⟩

end MatchainSupply
